import Mathlib

/-!
Verification development for the `twenty-migration-scripts` repository.

The repository contains two near-identical one-file pipelines that migrate
Zoho CRM records to Twenty CRM:
  * `src/taskMigration.ts`  — migrates tasks,
  * an unnamed contacts file — migrates contacts.

This file gives a shallow embedding of the pieces the claims are about:
the field-mapping functions (`mapStatus`, `validateDate`, `mapToTwentyTask`,
`mapToTwentyContact`), the batch loop of `migrateTasks` / `migrateContacts`
(`batchSlices`, `migrateLoop`, `contactLoop`), the environment validation
(`parseEnv` for the zod `EnvSchema`), the error translation
(`handleApiError`), and a small dynamic (JSON-value) model for the
unvalidated `response.data.data` access of `fetchZohoTasks`.

Modelling conventions:
  * Machine numbers that are always small naturals in the source are `Nat`;
    the zod `transform(Number)` result, which may be `NaN`, negative, or
    fractional, is modelled as `Option Int` (`none` = `NaN`; the claims only
    exercise integer literals).
  * The JavaScript clock (`new Date()`) is passed explicitly as a `DateTime`
    argument `now`.
  * ECMAScript `new Date(string)` parsing is modelled for the ISO-8601 UTC
    forms `YYYY-MM-DD` and `YYYY-MM-DDTHH:MM:SS.mmmZ` (the normalized form
    `toISOString` itself emits); any other string is treated as unparseable,
    matching the runtime's rejection of malformed ISO strings.
-/

/-- `Array.prototype.map(f)` in JavaScript calls `f(element, index)` with the
index *local to the array being mapped*.  `jsArrayMap f l 0` embeds
`l.map(f)` for a two-argument callback `f`. -/
def jsArrayMap (f : α → Nat → β) : List α → Nat → List β
  | [], _ => []
  | a :: rest, idx => f a idx :: jsArrayMap f rest (idx + 1)

/-! ## Task data model (`src/taskMigration.ts`) -/

/-- The `ZohoTask` record type of `taskMigration.ts` (optional fields are
`Option`; `Owner` is flattened to its two string components). -/
structure ZohoTask where
  id : String
  Subject : String
  Status : String
  Due_Date : String
  OwnerId : Option String := none
  OwnerName : Option String := none
  Modified_Time : Option String := none
  Created_Time : Option String := none
  deriving Repr, DecidableEq

/-- The `TwentyTask` record type of `taskMigration.ts`. -/
structure TwentyTask where
  title : String
  status : String
  dueAt : String
  position : Nat
  deriving Repr, DecidableEq

/-- `mapStatus` of `taskMigration.ts`: the object-literal lookup
`statusMap[zohoStatus] || 'TODO'`.  All three stored values are non-empty
strings (truthy), so the lookup-with-default is an if-chain.  Note the
source really stores the misspelt string `'IN_PROGESS'`. -/
def mapStatus (zohoStatus : String) : String :=
  if zohoStatus = "Open" then "TODO"
  else if zohoStatus = "In Progress" then "IN_PROGESS"
  else if zohoStatus = "Completed" then "DONE"
  else "TODO"

/-! ## The `Date` model

A JavaScript `Date` that is not `Invalid Date` is modelled by its UTC
calendar fields.  `toISOString` renders the fields; parsing accepts exactly
the two ISO-UTC shapes described in the header and rejects out-of-range
components, as ECMAScript does for ISO strings. -/

/-- UTC calendar fields of a JavaScript `Date` value. -/
structure DateTime where
  year : Nat
  month : Nat
  day : Nat
  hour : Nat
  minute : Nat
  second : Nat
  millis : Nat
  deriving Repr, DecidableEq

def isLeap (y : Nat) : Bool :=
  (y % 4 = 0 && !(y % 100 = 0)) || y % 400 = 0

def daysInMonth (y m : Nat) : Nat :=
  if m = 2 then (if isLeap y then 29 else 28)
  else if m = 4 ∨ m = 6 ∨ m = 9 ∨ m = 11 then 30
  else 31

/-- Component ranges under which a `DateTime` denotes a real instant that
`toISOString` can render with a four-digit year. -/
def validDate (d : DateTime) : Bool :=
  decide (1 ≤ d.month) && decide (d.month ≤ 12) &&
  decide (1 ≤ d.day) && decide (d.day ≤ daysInMonth d.year d.month) &&
  decide (d.year ≤ 9999) && decide (d.hour < 24) &&
  decide (d.minute < 60) && decide (d.second < 60) && decide (d.millis < 1000)

def digitChar (n : Nat) : Char := Char.ofNat (48 + n)

def pad2 (n : Nat) : List Char :=
  [digitChar (n / 10 % 10), digitChar (n % 10)]

def pad3 (n : Nat) : List Char :=
  [digitChar (n / 100 % 10), digitChar (n / 10 % 10), digitChar (n % 10)]

def pad4 (n : Nat) : List Char :=
  [digitChar (n / 1000 % 10), digitChar (n / 100 % 10),
   digitChar (n / 10 % 10), digitChar (n % 10)]

def renderChars (d : DateTime) : List Char :=
  pad4 d.year ++ '-' :: pad2 d.month ++ '-' :: pad2 d.day ++
  'T' :: pad2 d.hour ++ ':' :: pad2 d.minute ++ ':' :: pad2 d.second ++
  '.' :: pad3 d.millis ++ ['Z']

/-- `Date.prototype.toISOString`: the normalized UTC rendering
`YYYY-MM-DDTHH:MM:SS.mmmZ`. -/
def toISOString (d : DateTime) : String := ⟨renderChars d⟩

def digitVal? (c : Char) : Option Nat :=
  if '0' ≤ c ∧ c ≤ '9' then some (c.toNat - 48) else none

def read2 (a b : Char) : Option Nat :=
  match digitVal? a, digitVal? b with
  | some x, some y => some (10 * x + y)
  | _, _ => none

def read3 (a b c : Char) : Option Nat :=
  match digitVal? a, digitVal? b, digitVal? c with
  | some x, some y, some z => some (100 * x + 10 * y + z)
  | _, _, _ => none

def read4 (a b c d : Char) : Option Nat :=
  match digitVal? a, digitVal? b, digitVal? c, digitVal? d with
  | some w, some x, some y, some z => some (1000 * w + 100 * x + 10 * y + z)
  | _, _, _, _ => none

/-- Raw syntactic parse of the two supported ISO-UTC shapes; component
range checking happens afterwards in `parseDate`. -/
def rawParse (cs : List Char) : Option DateTime :=
  match cs with
  | y1 :: y2 :: y3 :: y4 :: s1 :: mo1 :: mo2 :: s2 :: d1 :: d2 :: rest =>
    if s1 = '-' && s2 = '-' then
      match read4 y1 y2 y3 y4, read2 mo1 mo2, read2 d1 d2 with
      | some y, some mo, some d =>
        match rest with
        | [] => some ⟨y, mo, d, 0, 0, 0, 0⟩
        | t :: h1 :: h2 :: c1 :: mi1 :: mi2 :: c2 :: se1 :: se2 ::
            dot :: ms1 :: ms2 :: ms3 :: z :: [] =>
          if t = 'T' && c1 = ':' && c2 = ':' && dot = '.' && z = 'Z' then
            match read2 h1 h2, read2 mi1 mi2, read2 se1 se2, read3 ms1 ms2 ms3 with
            | some h, some mi, some se, some ms => some ⟨y, mo, d, h, mi, se, ms⟩
            | _, _, _, _ => none
          else none
        | _ => none
      | _, _, _ => none
    else none
  | _ => none

/-- Model of `new Date(s)` followed by the `isNaN(getTime())` test:
`some dt` when `s` is a supported ISO-UTC string with in-range components,
`none` when the result would be `Invalid Date`. -/
def parseDate (s : String) : Option DateTime :=
  (rawParse s.data).bind (fun dt => if validDate dt then some dt else none)

/-- `validateDate` of `taskMigration.ts`.  The implicit clock read
`new Date()` is the explicit argument `now`:
`isNaN(parsed.getTime()) ? new Date().toISOString() : parsed.toISOString()`. -/
def validateDate (date : String) (now : DateTime) : String :=
  match parseDate date with
  | some parsed => toISOString parsed
  | none => toISOString now

/-- `mapToTwentyTask` of `taskMigration.ts`; `now` is the clock passed
through to `validateDate`. -/
def mapToTwentyTask (zohoTask : ZohoTask) (position : Nat) (now : DateTime) :
    TwentyTask :=
  { title := zohoTask.Subject
    status := mapStatus zohoTask.Status
    dueAt := validateDate zohoTask.Due_Date now
    position := position }

/-! ## The batch loop of `migrateTasks`

`for (let i = 0; i < tasks.length; i += config.BATCH_SIZE) processBatch(...)`
with `processBatch` slicing `tasks.slice(i, i + batchSize)`, mapping each
sliced record to position `startIndex + index + 1`, and POSTing the batch.

The loop of the source does not terminate when the batch size is 0 (the
step `i += 0` never advances); the model returns the empty result there.
All claims quantify over batch sizes `≥ 1`. -/

/-- The sequence of slices `tasks.slice(i, i + batchSize)` visited by the
batch loop, starting at index `i`. -/
def batchSlices (l : List α) (batchSize i : Nat) : List (List α) :=
  if h : batchSize = 0 ∨ l.length ≤ i then []
  else ((l.drop i).take batchSize) :: batchSlices l batchSize (i + batchSize)
termination_by l.length - i
decreasing_by
  push_neg at h
  omega

/-- Result of one run of `migrateTasks`: the list of record batches handed
to `createTwentyTasks` (one POST each, in order), and the terminal outcome
(`.error` models the exception that `migrateTasks` re-throws after a failed
POST). -/
structure RunResult where
  writerCalls : List (List TwentyTask)
  outcome : Except String Unit
  deriving Repr

/-- The batch loop of `migrateTasks`, with `processBatch` inlined.
`i` is the loop index, `k` counts completed POST attempts (the batch
number), and `writeOk k` tells whether the `k`-th POST succeeds; a failing
POST makes `createTwentyTasks`' `handleApiError` throw, aborting the loop. -/
def migrateLoop (tasks : List ZohoTask) (batchSize : Nat) (writeOk : Nat → Bool)
    (now : DateTime) (i k : Nat) : RunResult :=
  if h : batchSize = 0 ∨ tasks.length ≤ i then ⟨[], .ok ()⟩
  else
    let mapped := jsArrayMap
      (fun task index => mapToTwentyTask task (i + index + 1) now)
      ((tasks.drop i).take batchSize) 0
    if writeOk k then
      let r := migrateLoop tasks batchSize writeOk now (i + batchSize) (k + 1)
      ⟨mapped :: r.writerCalls, r.outcome⟩
    else ⟨[mapped], .error "API Error"⟩
termination_by tasks.length - i
decreasing_by
  push_neg at h
  omega

/-- One run of `migrateTasks` over an already-fetched task list. -/
def migrateTasksRun (tasks : List ZohoTask) (batchSize : Nat)
    (writeOk : Nat → Bool) (now : DateTime) : RunResult :=
  migrateLoop tasks batchSize writeOk now 0 0

/-! ## Contact data model (the unnamed contacts file) -/

/-- The `ZohoContact` record type (fields the mapper reads). -/
structure ZohoContact where
  id : String
  First_Name : String
  Last_Name : String
  Email : String
  Phone : String
  Mobile : String
  Mailing_City : String
  Title : String
  Record_Image : String
  Mailing_Country : String
  deriving Repr, DecidableEq

structure TwentyContactName where
  firstName : String
  lastName : String
  deriving Repr, DecidableEq

structure TwentyContactEmails where
  primaryEmail : String
  additionalEmails : List String
  deriving Repr, DecidableEq

structure TwentyContactPhones where
  primaryPhoneNumber : String
  primaryPhoneCountryCode : Option String
  additionalPhones : List String
  deriving Repr, DecidableEq

structure TwentyContactCreatedBy where
  source : String
  deriving Repr, DecidableEq

/-- The `TwentyContact` record type (the `linkedinLink` placeholder `{}`
carries no data and is omitted). -/
structure TwentyContact where
  name : TwentyContactName
  emails : TwentyContactEmails
  jobTitle : Option String
  phones : TwentyContactPhones
  city : Option String
  position : Nat
  createdBy : TwentyContactCreatedBy
  deriving Repr, DecidableEq

/-- `mapToTwentyContact` of the contacts file.  Note `position := index + 1`
where `index` is whatever second argument the caller supplies. -/
def mapToTwentyContact (zohoContact : ZohoContact) (index : Nat) : TwentyContact :=
  { name := ⟨zohoContact.First_Name, zohoContact.Last_Name⟩
    emails := ⟨zohoContact.Email, []⟩
    jobTitle := some zohoContact.Title
    phones := ⟨zohoContact.Phone, some zohoContact.Mailing_Country,
               [zohoContact.Mobile]⟩
    city := some zohoContact.Mailing_City
    position := index + 1
    createdBy := ⟨"EMAIL"⟩ }

/-- The batch loop of `migrateContacts`, collecting the record batches
handed to `createTwentyContacts`.  `processBatch` there runs
`batch.map(mapToTwentyContact)`: JavaScript supplies the *batch-local*
index as the callback's second argument, embedded by `jsArrayMap ... 0`. -/
def contactLoop (contacts : List ZohoContact) (batchSize i : Nat) :
    List (List TwentyContact) :=
  if h : batchSize = 0 ∨ contacts.length ≤ i then []
  else
    (jsArrayMap (fun c index => mapToTwentyContact c index)
      ((contacts.drop i).take batchSize) 0) ::
    contactLoop contacts batchSize (i + batchSize)
termination_by contacts.length - i
decreasing_by
  push_neg at h
  omega

/-- The batches of mapped contacts POSTed by one (fully successful) run of
`migrateContacts`. -/
def contactMigrationWrites (contacts : List ZohoContact) (batchSize : Nat) :
    List (List TwentyContact) :=
  contactLoop contacts batchSize 0

/-! ## Environment validation (`EnvSchema`)

`z.object({ ZOHO_BASE_URL: z.string().url(), ZOHO_API_KEY: z.string().min(1),
TWENTY_BASE_URL: z.string().url(), TWENTY_API_KEY: z.string().min(1),
BATCH_SIZE: z.string().transform(Number).default('50'),
RATE_LIMIT_PER_SECOND: z.string().transform(Number).default('5') })`.

The numeric fields are *not* range-checked: any string passes and is
converted with JavaScript `Number(...)`. -/

/-- The six environment variables `EnvSchema` reads (`none` = unset). -/
structure Env where
  ZOHO_BASE_URL : Option String
  ZOHO_API_KEY : Option String
  TWENTY_BASE_URL : Option String
  TWENTY_API_KEY : Option String
  BATCH_SIZE : Option String
  RATE_LIMIT_PER_SECOND : Option String
  deriving Repr, DecidableEq

/-- The parsed configuration.  The two numeric fields carry the result of
`Number(...)`: `some n` for an integer literal, `none` for `NaN`. -/
structure Config where
  ZOHO_BASE_URL : String
  ZOHO_API_KEY : String
  TWENTY_BASE_URL : String
  TWENTY_API_KEY : String
  BATCH_SIZE : Option Int
  RATE_LIMIT_PER_SECOND : Option Int
  deriving Repr, DecidableEq

/-- Split a character list at the first occurrence of `://`. -/
def splitScheme : List Char → Option (List Char × List Char)
  | [] => none
  | ':' :: '/' :: '/' :: rest => some ([], rest)
  | c :: cs => (splitScheme cs).map (fun p => (c :: p.1, p.2))

/-- Simplified model of zod's `.url()` check (`new URL(s)` succeeding):
a non-empty scheme followed by `://` and a non-empty remainder. -/
def isValidUrl (s : String) : Bool :=
  match splitScheme s.data with
  | some (scheme, rest) => decide (scheme ≠ []) && decide (rest ≠ [])
  | none => false

def digitsVal (acc : Nat) : List Char → Option Nat
  | [] => some acc
  | c :: cs =>
    match digitVal? c with
    | some d => digitsVal (10 * acc + d) cs
    | none => none

/-- A non-empty all-digit string's value; `none` otherwise. -/
def parseNatDigits (cs : List Char) : Option Nat :=
  match cs with
  | [] => none
  | _ => digitsVal 0 cs

def isSpaceChar (c : Char) : Bool :=
  c = ' ' || c = '\t' || c = '\n' || c = '\r'

def dropLeadingSpace : List Char → List Char
  | [] => []
  | c :: cs => if isSpaceChar c then dropLeadingSpace cs else c :: cs

/-- Whitespace trimming as `Number(...)` performs it. -/
def trimChars (cs : List Char) : List Char :=
  ((dropLeadingSpace cs.reverse).reverse |> dropLeadingSpace)

/-- Model of JavaScript `Number(s)` restricted to the shapes the claims
exercise: trimmed empty string is `0`, decimal integer literals (optionally
`-`-signed) are their value, anything else is `NaN` (`none`).  (Fractional,
hex, and exponent literals are outside the model.) -/
def jsNumber (s : String) : Option Int :=
  match trimChars s.data with
  | [] => some 0
  | '-' :: ds => (parseNatDigits ds).map (fun n => -(n : Int))
  | t => (parseNatDigits t).map (fun n => (n : Int))

/-- `EnvSchema.parse`: `none` models a thrown `ZodError`.  Only the four
URL/key fields are checked; the numeric fields always pass, defaulting to
`'50'` / `'5'` when unset and then going through `Number(...)`. -/
def parseEnv (env : Env) : Option Config :=
  match env.ZOHO_BASE_URL, env.ZOHO_API_KEY,
        env.TWENTY_BASE_URL, env.TWENTY_API_KEY with
  | some zu, some zk, some tu, some tk =>
    if isValidUrl zu ∧ 1 ≤ zk.length ∧ isValidUrl tu ∧ 1 ≤ tk.length then
      some ⟨zu, zk, tu, tk,
            jsNumber (env.BATCH_SIZE.getD "50"),
            jsNumber (env.RATE_LIMIT_PER_SECOND.getD "5")⟩
    else none
  | _, _, _, _ => none

/-! ## Error translation (`handleApiError`, identical in both files) -/

/-- `error.response.data` as read by `handleApiError`. -/
structure ApiResponseData where
  message : Option String
  deriving Repr, DecidableEq

/-- `error.response` as read by `handleApiError`. -/
structure ApiResponse where
  status : Nat
  data : Option ApiResponseData
  deriving Repr, DecidableEq

/-- A caught axios error: an optional `response` plus the error's own
`message`.  (The `if (error)` guard of the source only re-throws a falsy
caught value; a caught axios error object is always truthy, so the model
covers the truthy branch.) -/
structure ApiError where
  response : Option ApiResponse
  message : String
  deriving Repr, DecidableEq

/-- What `logger.error('API Error', { statusCode, message })` records. -/
structure LogEntry where
  statusCode : Nat
  message : String
  deriving Repr, DecidableEq

/-- A JavaScript `new Error(msg)` value: it carries only its message. -/
structure JsError where
  message : String
  deriving Repr, DecidableEq

/-- The message `error.response?.data?.message || error.message` selects
(`||` also skips an empty — falsy — string). -/
def apiMessageOf (error : ApiError) : String :=
  match (error.response.bind (fun r => r.data)).bind (fun d => d.message) with
  | some m => if m = "" then error.message else m
  | none => error.message

/-- The status `error.response?.status || 500` selects (`||` also replaces
a zero — falsy — status). -/
def apiStatusOf (error : ApiError) : Nat :=
  match error.response with
  | some r => if r.status = 0 then 500 else r.status
  | none => 500

/-- `handleApiError`: logs `{ statusCode, message }`, then throws
`new Error('API Error: ' + message)`.  Result: (the log entry, the thrown
error). -/
def handleApiError (error : ApiError) : LogEntry × JsError :=
  let statusCode := match error.response with
    | some r => if r.status = 0 then 500 else r.status
    | none => 500
  let message := match (error.response.bind (fun r => r.data)).bind
      (fun d => d.message) with
    | some m => if m = "" then error.message else m
    | none => error.message
  (⟨statusCode, message⟩, ⟨"API Error: " ++ message⟩)

/-! ## Dynamic model for the unvalidated fetch (`fetchZohoTasks`)

`fetchZohoTasks` returns `response.data.data` with no check that the field
exists or is an array.  To state what the run then does, this section models
the relevant fragment of JavaScript values and property access. -/

/-- A JavaScript/JSON value (the fragment the claims need). -/
inductive JsValue where
  | undefined : JsValue
  | null : JsValue
  | bool : Bool → JsValue
  | num : Int → JsValue
  | str : String → JsValue
  | arr : List JsValue → JsValue
  | obj : List (String × JsValue) → JsValue

/-- Own-property lookup on an object literal (absent property = `undefined`). -/
def lookupField : List (String × JsValue) → String → JsValue
  | [], _ => .undefined
  | (k, v) :: rest, key => if k = key then v else lookupField rest key

def JsValue.isArr : JsValue → Bool
  | .arr _ => true
  | _ => false

/-- Property read `v[key]`: throws a `TypeError` on `undefined`/`null`,
yields the `length` of strings and arrays, looks up object fields, and
gives `undefined` everywhere else (numeric index properties are outside the
model). -/
def getProp : JsValue → String → Except String JsValue
  | .undefined, key =>
    .error ("TypeError: Cannot read properties of undefined (reading " ++ key ++ ")")
  | .null, key =>
    .error ("TypeError: Cannot read properties of null (reading " ++ key ++ ")")
  | .arr l, key => if key = "length" then .ok (.num l.length) else .ok .undefined
  | .str s, key => if key = "length" then .ok (.num s.length) else .ok .undefined
  | .obj fields, key => .ok (lookupField fields key)
  | _, _ => .ok .undefined

/-- `fetchZohoTasks` on a 2xx response whose parsed body is `body`:
`return response.data.data` — the `data` field is returned unchanged,
with no check that it is an array. -/
def fetchZohoTasksDyn (body : JsValue) : Except String JsValue :=
  getProp body "data"

/-- What `migrateTasks` does after a 2xx fetch, as a function of the parsed
response body: number of writer (POST) calls on success, or the first thrown
error.  The template literal `\x7bzohoTasks.length\x7d` in the success log
reads `.length` first (throwing on `undefined`/`null`); the loop guard
`i < zohoTasks.length` is false whenever `length` is not a number, so the
loop body never runs for such values; a non-array with a numeric `length`
reaches `tasks.slice` / `batch.map` and throws.  All POSTs are assumed to
succeed, and `batchSize = 0` (a non-terminating source loop) is outside the
claims. -/
def migrateTasksDyn (body : JsValue) (batchSize : Nat) : Except String Nat :=
  match getProp body "data" with
  | .error e => .error e
  | .ok tasks =>
    match getProp tasks "length" with
    | .error e => .error e
    | .ok len =>
      match len with
      | .num n =>
        match tasks with
        | .arr _ =>
          if 0 < n then .ok ((n.toNat + batchSize - 1) / batchSize) else .ok 0
        | .str _ =>
          if 0 < n then .error "TypeError: batch.map is not a function"
          else .ok 0
        | _ =>
          if 0 < n then .error "TypeError: zohoTasks.slice is not a function"
          else .ok 0
      | _ => .ok 0

/-! ## Derived definitions and concrete inputs used by the claims -/

/-- The batch of mapped tasks `processBatch` POSTs for batch number `k`
(the loop index there is `i = k * batchSize`). -/
def mappedBatch (tasks : List ZohoTask) (batchSize : Nat) (now : DateTime)
    (k : Nat) : List TwentyTask :=
  jsArrayMap (fun task index => mapToTwentyTask task (k * batchSize + index + 1) now)
    ((tasks.drop (k * batchSize)).take batchSize) 0

/-- A fixed clock value for concrete runs. -/
def demoNow : DateTime := ⟨2024, 1, 1, 0, 0, 0, 0⟩

def contactA : ZohoContact :=
  ⟨"a", "Fa", "La", "a@x.com", "111", "222", "CityA", "TA", "imgA", "US"⟩

def contactB : ZohoContact :=
  ⟨"b", "Fb", "Lb", "b@x.com", "333", "444", "CityB", "TB", "imgB", "IN"⟩

def taskA : ZohoTask :=
  { id := "ta", Subject := "Call Alice", Status := "Open",
    Due_Date := "2024-05-06" }

def taskB : ZohoTask :=
  { id := "tb", Subject := "Mail Bob", Status := "Completed",
    Due_Date := "2024-05-07" }

def taskC : ZohoTask :=
  { id := "tc", Subject := "Ping Carol", Status := "In Progress",
    Due_Date := "2024-05-08" }

/-- A task whose due date no `Date` parse accepts. -/
def badDateTask : ZohoTask :=
  { id := "1", Subject := "Call", Status := "Open", Due_Date := "not-a-date" }

/-- A task with a parseable ISO due date. -/
def goodDateTask : ZohoTask :=
  { id := "2", Subject := "Send", Status := "Open", Due_Date := "2024-05-06" }

/-- An environment whose four required fields are valid but whose
`BATCH_SIZE` is the non-positive integer string `"-7"`. -/
def envNeg : Env :=
  ⟨some "http://zoho.example", some "key1",
   some "http://twenty.example", some "key2", some "-7", none⟩

/-! ## Helper lemmas -/

theorem digitVal_digitChar (x : Nat) (h : x < 10) :
    digitVal? (digitChar x) = some x := by
  interval_cases x <;> rfl

theorem digitVal_digitChar_mod (x : Nat) :
    digitVal? (digitChar (x % 10)) = some (x % 10) :=
  digitVal_digitChar _ (Nat.mod_lt _ (by omega))

theorem daysInMonth_le (y m : Nat) : daysInMonth y m ≤ 31 := by
  unfold daysInMonth
  split
  · split <;> omega
  · split <;> omega

/-- Rendering a valid `DateTime` with `toISOString` and parsing the result
recovers the same instant (the model's round-trip law). -/
theorem parseDate_toISOString (d : DateTime) (h : validDate d = true) :
    parseDate (toISOString d) = some d := by
  obtain ⟨y, mo, dy, hh, mi, se, ms⟩ := d
  have hb : (1 ≤ mo ∧ mo ≤ 12) ∧ (1 ≤ dy ∧ dy ≤ daysInMonth y mo) ∧
      y ≤ 9999 ∧ hh < 24 ∧ mi < 60 ∧ se < 60 ∧ ms < 1000 := by
    simp only [validDate, Bool.and_eq_true, decide_eq_true_eq] at h
    tauto
  have hdm := daysInMonth_le y mo
  obtain ⟨⟨h1, h2⟩, ⟨h3, h4⟩, h5, h6, h7, h8, h9⟩ := hb
  have ey : 1000 * (y / 1000 % 10) + 100 * (y / 100 % 10) +
      10 * (y / 10 % 10) + y % 10 = y := by omega
  have emo : 10 * (mo / 10 % 10) + mo % 10 = mo := by omega
  have edy : 10 * (dy / 10 % 10) + dy % 10 = dy := by omega
  have ehh : 10 * (hh / 10 % 10) + hh % 10 = hh := by omega
  have emi : 10 * (mi / 10 % 10) + mi % 10 = mi := by omega
  have ese : 10 * (se / 10 % 10) + se % 10 = se := by omega
  have ems : 100 * (ms / 100 % 10) + 10 * (ms / 10 % 10) + ms % 10 = ms := by
    omega
  simp only [parseDate, toISOString, renderChars, pad4, pad3, pad2,
    List.cons_append, List.nil_append, rawParse, read4, read3, read2,
    digitVal_digitChar_mod]
  simp only [ey, emo, edy, ehh, emi, ese, ems]
  simp [Option.bind, h]

/-- `parseDate` only accepts component-wise valid dates. -/
theorem parseDate_valid {s : String} {t : DateTime} (h : parseDate s = some t) :
    validDate t = true := by
  unfold parseDate at h
  cases hr : rawParse s.data with
  | none => rw [hr] at h; simp at h
  | some dt =>
    rw [hr] at h
    simp only [Option.bind] at h
    by_cases hv : validDate dt = true
    · rw [if_pos hv] at h
      cases h
      exact hv
    · rw [if_neg (by simpa using hv)] at h
      simp at h

theorem batchSlices_eq_nil_iff {α : Type} {l : List α} {B i : Nat} :
    batchSlices l B i = [] ↔ (B = 0 ∨ l.length ≤ i) := by
  rw [batchSlices]
  split <;> simp_all

theorem batchSlices_cons {α : Type} {l : List α} {B i : Nat}
    (hB : B ≠ 0) (hi : i < l.length) :
    batchSlices l B i = ((l.drop i).take B) :: batchSlices l B (i + B) := by
  rw [batchSlices, dif_neg (by omega)]

/-- The loop's slices concatenate back to the suffix it walks over. -/
theorem batchSlices_flatten {α : Type} {B : Nat} (hB : B ≠ 0) (l : List α) :
    ∀ (n i : Nat), l.length - i ≤ n → (batchSlices l B i).flatten = l.drop i := by
  intro n
  induction n with
  | zero =>
    intro i hn
    have hle : l.length ≤ i := by omega
    rw [batchSlices_eq_nil_iff.mpr (Or.inr hle), List.drop_eq_nil_iff.mpr hle]
    rfl
  | succ n ih =>
    intro i hn
    by_cases hi : i < l.length
    · rw [batchSlices_cons hB hi, List.flatten_cons, ih (i + B) (by omega)]
      have hdd : l.drop (i + B) = (l.drop i).drop B := by
        rw [List.drop_drop]
      rw [hdd]
      exact List.take_append_drop B (l.drop i)
    · have hle : l.length ≤ i := by omega
      rw [batchSlices_eq_nil_iff.mpr (Or.inr hle), List.drop_eq_nil_iff.mpr hle]
      rfl

/-- The loop performs a ceiling-division number of iterations. -/
theorem batchSlices_length {α : Type} {B : Nat} (hB : B ≠ 0) (l : List α) :
    ∀ (n i : Nat), l.length - i ≤ n →
      (batchSlices l B i).length = (l.length - i + B - 1) / B := by
  intro n
  induction n with
  | zero =>
    intro i hn
    rw [batchSlices_eq_nil_iff.mpr (Or.inr (by omega))]
    have h0 : l.length - i = 0 := by omega
    rw [h0]
    exact (Nat.div_eq_of_lt (by omega)).symm
  | succ n ih =>
    intro i hn
    by_cases hi : i < l.length
    · rw [batchSlices_cons hB hi, List.length_cons, ih (i + B) (by omega)]
      by_cases hm : l.length - i ≤ B
      · have h0 : l.length - (i + B) = 0 := by omega
        rw [h0]
        rw [show (0 + B - 1) / B = 0 from Nat.div_eq_of_lt (by omega)]
        exact (Nat.div_eq_of_lt_le (by omega) (by omega)).symm
      · have h1 : l.length - (i + B) + B - 1 = l.length - i - 1 := by omega
        have h2 : l.length - i + B - 1 = (l.length - i - 1) + B := by omega
        rw [h1, h2, Nat.add_div_right _ (by omega)]
    · rw [batchSlices_eq_nil_iff.mpr (Or.inr (by omega))]
      have h0 : l.length - i = 0 := by omega
      rw [h0]
      exact (Nat.div_eq_of_lt (by omega)).symm

/-- No slice exceeds the batch size. -/
theorem batchSlices_sizes {α : Type} {B : Nat} (hB : B ≠ 0) (l : List α) :
    ∀ (n i : Nat), l.length - i ≤ n →
      ∀ c ∈ batchSlices l B i, c.length ≤ B := by
  intro n
  induction n with
  | zero =>
    intro i hn c hc
    rw [batchSlices_eq_nil_iff.mpr (Or.inr (by omega))] at hc
    simp at hc
  | succ n ih =>
    intro i hn c hc
    by_cases hi : i < l.length
    · rw [batchSlices_cons hB hi] at hc
      rcases List.mem_cons.mp hc with h | h
      · subst h
        simp only [List.length_take]
        exact Nat.min_le_left B (l.drop i).length
      · exact ih (i + B) (by omega) c h
    · rw [batchSlices_eq_nil_iff.mpr (Or.inr (by omega))] at hc
      simp at hc

/-- Every slice except possibly the last has exactly the batch size. -/
theorem batchSlices_dropLast {α : Type} {B : Nat} (hB : B ≠ 0) (l : List α) :
    ∀ (n i : Nat), l.length - i ≤ n →
      ∀ c ∈ (batchSlices l B i).dropLast, c.length = B := by
  intro n
  induction n with
  | zero =>
    intro i hn c hc
    rw [batchSlices_eq_nil_iff.mpr (Or.inr (by omega))] at hc
    simp at hc
  | succ n ih =>
    intro i hn c hc
    by_cases hi : i < l.length
    · rw [batchSlices_cons hB hi] at hc
      by_cases hrest : batchSlices l B (i + B) = []
      · rw [hrest] at hc
        simp at hc
      · rw [List.dropLast_cons_of_ne_nil hrest] at hc
        rcases List.mem_cons.mp hc with h | h
        · subst h
          have hlt : i + B < l.length := by
            rcases (not_iff_not.mpr batchSlices_eq_nil_iff).mp hrest
              |> not_or.mp with ⟨_, h2⟩
            omega
          simp [List.length_take, List.length_drop]
          omega
        · exact ih (i + B) (by omega) c h
    · rw [batchSlices_eq_nil_iff.mpr (Or.inr (by omega))] at hc
      simp at hc

/-- One unfolding of the task batch loop at a live index. -/
theorem migrateLoop_cons (tasks : List ZohoTask) (B : Nat) (w : Nat → Bool)
    (now : DateTime) (i k : Nat) (hB : B ≠ 0) (hi : i < tasks.length) :
    migrateLoop tasks B w now i k =
      if w k then
        ⟨jsArrayMap (fun task index => mapToTwentyTask task (i + index + 1) now)
            ((tasks.drop i).take B) 0 ::
          (migrateLoop tasks B w now (i + B) (k + 1)).writerCalls,
         (migrateLoop tasks B w now (i + B) (k + 1)).outcome⟩
      else
        ⟨[jsArrayMap (fun task index => mapToTwentyTask task (i + index + 1) now)
            ((tasks.drop i).take B) 0], .error "API Error"⟩ := by
  rw [migrateLoop, dif_neg (by omega)]

/-- When the first failing POST is for batch `kc + dk`, the loop started at
batch `kc` issues exactly the batches `kc .. kc + dk` and then aborts. -/
theorem migrateLoop_fail (tasks : List ZohoTask) (B : Nat) (now : DateTime)
    (w : Nat → Bool) (hB : B ≠ 0) :
    ∀ (dk kc : Nat), (kc + dk) * B < tasks.length → w (kc + dk) = false →
      (∀ j, kc ≤ j → j < kc + dk → w j = true) →
      migrateLoop tasks B w now (kc * B) kc =
        ⟨(List.range (dk + 1)).map (fun j => mappedBatch tasks B now (kc + j)),
         .error "API Error"⟩ := by
  intro dk
  induction dk with
  | zero =>
    intro kc hlen hw _
    rw [migrateLoop_cons tasks B w now _ _ hB (by simpa using hlen)]
    rw [if_neg (by simp_all)]
    simp [mappedBatch, List.range_succ, List.range_zero]
  | succ dk ih =>
    intro kc hlen hw hprev
    have hkc : kc * B < tasks.length := by
      have : kc * B ≤ (kc + (dk + 1)) * B := Nat.mul_le_mul_right B (by omega)
      omega
    rw [migrateLoop_cons tasks B w now _ _ hB hkc]
    rw [if_pos (hprev kc le_rfl (by omega))]
    rw [show kc * B + B = (kc + 1) * B by ring]
    rw [ih (kc + 1) (by rw [show kc + 1 + dk = kc + (dk + 1) by ring]; exact hlen)
        (by rw [show kc + 1 + dk = kc + (dk + 1) by ring]; exact hw)
        (fun j h1 h2 => hprev j (by omega) (by omega))]
    simp only [RunResult.mk.injEq]
    refine ⟨?_, trivial⟩
    conv_rhs => rw [List.range_succ_eq_map, List.map_cons, List.map_map]
    refine congrArg₂ List.cons ?_ ?_
    · simp [mappedBatch]
    · refine List.map_congr_left ?_
      intro j _
      simp only [Function.comp]
      rw [show kc + 1 + j = kc + (j + 1) by omega]

/-- C1: the claim says every `DestinationRecord`'s position equals the
record's 0-indexed global fetch position plus one in both pipelines.  The
contact pipeline violates it: `batch.map(mapToTwentyContact)` hands the
callback the batch-local index, so with batch size 1 and two contacts both
POSTed records carry position 1.  Under the same scenario the task pipeline
does assign positions 1 and 2, showing the contacts code departs from the
intended (and elsewhere implemented) scheme. -/
theorem c1_contact_positions_restart_per_batch :
    ((contactMigrationWrites [contactA, contactB] 1).flatten.map
      (fun c => c.position)) = [1, 1] ∧
    ((migrateTasksRun [taskA, taskB] 1 (fun _ => true) demoNow).writerCalls.flatten.map
      (fun t => t.position)) = [1, 2] ∧
    ([1, 1] : List Nat) ≠ [1, 2] := by
  refine ⟨?_, ?_, by decide⟩
  · simp [contactMigrationWrites, contactLoop, jsArrayMap, mapToTwentyContact,
      contactA, contactB]
  · simp [migrateTasksRun, migrateLoop, jsArrayMap, mapToTwentyTask,
      taskA, taskB]

/-- C2: the translation table maps "Open" to TODO, "Completed" to DONE and
unknown strings to TODO as claimed, but "In Progress" is mapped to the
misspelt string `IN_PROGESS`, not `IN_PROGRESS`. -/
theorem c2_mapStatus_misspells_in_progress :
    mapStatus "Open" = "TODO" ∧ mapStatus "Completed" = "DONE" ∧
    mapStatus "anything else" = "TODO" ∧
    mapStatus "In Progress" = "IN_PROGESS" ∧ "IN_PROGESS" ≠ "IN_PROGRESS" := by
  decide

/-- C3 (counterexample): mapping the same record and position at two
different clock instants yields different records when the due date is
unparseable, because `validateDate` falls back to `new Date()`. -/
theorem c3_counterexample_clock_dependence :
    mapToTwentyTask badDateTask 1 ⟨2024, 1, 1, 0, 0, 0, 0⟩ ≠
    mapToTwentyTask badDateTask 1 ⟨2025, 1, 1, 0, 0, 0, 0⟩ := by
  decide

/-- C3 (amended): field mapping is a pure function of the record, the
position and the current time, and is independent of the current time —
hence deterministic across repeated applications — whenever the record's
due date parses; only an unparseable due date makes the output depend on
the clock. -/
theorem c3_mapping_deterministic_when_date_parses (r : ZohoTask) (p : Nat)
    (n1 n2 : DateTime) (h : (parseDate r.Due_Date).isSome = true) :
    mapToTwentyTask r p n1 = mapToTwentyTask r p n2 := by
  obtain ⟨t, ht⟩ := Option.isSome_iff_exists.mp h
  simp [mapToTwentyTask, validateDate, ht]

theorem c3_mapping_deterministic_witness :
    (parseDate goodDateTask.Due_Date).isSome = true ∧
    mapToTwentyTask goodDateTask 1 ⟨2024, 1, 1, 0, 0, 0, 0⟩ =
      mapToTwentyTask goodDateTask 1 ⟨2025, 2, 3, 4, 5, 6, 7⟩ :=
  ⟨by decide,
   c3_mapping_deterministic_when_date_parses goodDateTask 1 _ _ (by decide)⟩

/-- C4: for every batch size `B ≥ 1` the loop partitions the fetched list
into `⌈N / B⌉` contiguous slices, all of size `B` except possibly the last,
whose in-order concatenation is the original list; an empty list yields
zero batches and zero writer calls. -/
theorem c4_batch_partition {α : Type} (l : List α) (B : Nat) (hB : 1 ≤ B) :
    (batchSlices l B 0).length = (l.length + B - 1) / B ∧
    (batchSlices l B 0).flatten = l ∧
    (∀ c ∈ (batchSlices l B 0).dropLast, c.length = B) ∧
    (∀ c ∈ batchSlices l B 0, c.length ≤ B) ∧
    (∀ (writeOk : Nat → Bool) (now : DateTime),
      (migrateTasksRun [] B writeOk now).writerCalls = []) := by
  have hB0 : B ≠ 0 := by omega
  refine ⟨?_, ?_, ?_, ?_, ?_⟩
  · simpa using batchSlices_length hB0 l l.length 0 (by omega)
  · simpa using batchSlices_flatten hB0 l l.length 0 (by omega)
  · exact batchSlices_dropLast hB0 l l.length 0 (by omega)
  · exact batchSlices_sizes hB0 l l.length 0 (by omega)
  · intro writeOk now
    rw [migrateTasksRun, migrateLoop]
    simp

theorem c4_batch_partition_witness :
    1 ≤ 2 ∧
    ((batchSlices ([10, 20, 30, 40, 50] : List Nat) 2 0).length =
        (([10, 20, 30, 40, 50] : List Nat).length + 2 - 1) / 2 ∧
      (batchSlices ([10, 20, 30, 40, 50] : List Nat) 2 0).flatten =
        [10, 20, 30, 40, 50] ∧
      (∀ c ∈ (batchSlices ([10, 20, 30, 40, 50] : List Nat) 2 0).dropLast,
        c.length = 2) ∧
      (∀ c ∈ batchSlices ([10, 20, 30, 40, 50] : List Nat) 2 0,
        c.length ≤ 2) ∧
      (∀ (writeOk : Nat → Bool) (now : DateTime),
        (migrateTasksRun [] 2 writeOk now).writerCalls = [])) :=
  ⟨by decide, c4_batch_partition [10, 20, 30, 40, 50] 2 (by decide)⟩

/-- C5: if the POST for batch `k` (0-indexed) fails and every earlier POST
succeeded, the writer is called exactly once per batch `0 .. k` with the
mapped batches in order (the earlier, successful calls stand — nothing
revokes them), no later batch is ever POSTed, and the run ends with the
propagated error. -/
theorem c5_abort_on_batch_failure (tasks : List ZohoTask) (B k : Nat)
    (writeOk : Nat → Bool) (now : DateTime) (hB : 1 ≤ B)
    (hk : k * B < tasks.length) (hfail : writeOk k = false)
    (hprev : ∀ j, j < k → writeOk j = true) :
    (migrateTasksRun tasks B writeOk now).writerCalls =
      (List.range (k + 1)).map (fun j => mappedBatch tasks B now j) ∧
    (migrateTasksRun tasks B writeOk now).outcome = .error "API Error" := by
  have h := migrateLoop_fail tasks B now writeOk (by omega) k 0
    (by simpa using hk) (by simpa using hfail)
    (fun j h0 hj => hprev j (by omega))
  simp only [Nat.zero_mul, Nat.zero_add] at h
  rw [migrateTasksRun, h]
  exact ⟨rfl, rfl⟩

theorem c5_abort_witness :
    (1 : Nat) * 1 < ([taskA, taskB, taskC] : List ZohoTask).length ∧
    (fun j => decide (j = 0)) 1 = false ∧
    ((migrateTasksRun [taskA, taskB, taskC] 1 (fun j => decide (j = 0))
        demoNow).writerCalls =
      (List.range (1 + 1)).map
        (fun j => mappedBatch [taskA, taskB, taskC] 1 demoNow j) ∧
     (migrateTasksRun [taskA, taskB, taskC] 1 (fun j => decide (j = 0))
        demoNow).outcome = .error "API Error") :=
  ⟨by decide, by decide,
   c5_abort_on_batch_failure [taskA, taskB, taskC] 1 1 (fun j => decide (j = 0))
     demoNow (by decide) (by decide) (by decide)
     (fun j hj => by
       have hj0 : j = 0 := by omega
       simp [hj0])⟩

/-- C6 (counterexample): an environment whose `BATCH_SIZE` is the
non-positive integer string "-7" passes `EnvSchema` validation and a run
would start with batch size -7, refuting "validation accepts only a batch
size that is a positive integer". -/
theorem c6_counterexample_nonpositive_batch_accepted :
    parseEnv envNeg =
      some ⟨"http://zoho.example", "key1", "http://twenty.example", "key2",
            some (-7), some 5⟩ ∧
    ¬ (0 : Int) < -7 := by
  exact ⟨by decide, by decide⟩

/-- C6 (amended): validation checks only the four URL/key fields — whether
parsing succeeds is independent of the batch-size and rate-limit strings,
which are never rejected (any string, including non-positive or
non-numeric ones, is accepted via `Number(...)`) — and an absent
`BATCH_SIZE` / `RATE_LIMIT_PER_SECOND` behaves exactly like supplying the
default strings "50" / "5". -/
theorem c6_only_required_fields_validated (env : Env) (s t : Option String) :
    ((parseEnv { env with BATCH_SIZE := s, RATE_LIMIT_PER_SECOND := t }).isSome =
      (parseEnv env).isSome) ∧
    (parseEnv { env with BATCH_SIZE := none } =
      parseEnv { env with BATCH_SIZE := some "50" }) ∧
    (parseEnv { env with RATE_LIMIT_PER_SECOND := none } =
      parseEnv { env with RATE_LIMIT_PER_SECOND := some "5" }) ∧
    ((env.ZOHO_BASE_URL = none ∨ env.ZOHO_API_KEY = none ∨
      env.TWENTY_BASE_URL = none ∨ env.TWENTY_API_KEY = none) →
      parseEnv env = none) ∧
    (∀ u, env.ZOHO_BASE_URL = some u → isValidUrl u = false →
      parseEnv env = none) ∧
    (∀ u, env.TWENTY_BASE_URL = some u → isValidUrl u = false →
      parseEnv env = none) ∧
    (∀ k, env.ZOHO_API_KEY = some k → k.length = 0 →
      parseEnv env = none) ∧
    (∀ k, env.TWENTY_API_KEY = some k → k.length = 0 →
      parseEnv env = none) := by
  obtain ⟨u1, k1, u2, k2, b, r⟩ := env
  refine ⟨?_, ?_, ?_, ?_, ?_, ?_, ?_, ?_⟩
  · cases u1 <;> cases k1 <;> cases u2 <;> cases k2 <;>
      simp only [parseEnv] <;> first
        | rfl
        | (split <;> simp)
  · cases u1 <;> cases k1 <;> cases u2 <;> cases k2 <;>
      simp only [parseEnv] <;> first
        | rfl
        | (split <;> simp)
  · cases u1 <;> cases k1 <;> cases u2 <;> cases k2 <;>
      simp only [parseEnv] <;> first
        | rfl
        | (split <;> simp)
  · intro h
    cases u1 <;> cases k1 <;> cases u2 <;> cases k2 <;> simp_all [parseEnv]
  · intro u hu hbad
    cases u1 <;> cases k1 <;> cases u2 <;> cases k2 <;> simp_all [parseEnv]
  · intro u hu hbad
    cases u1 <;> cases k1 <;> cases u2 <;> cases k2 <;> simp_all [parseEnv]
  · intro k hk hlen
    cases u1 <;> cases k1 <;> cases u2 <;> cases k2 <;> simp_all [parseEnv]
  · intro k hk hlen
    cases u1 <;> cases k1 <;> cases u2 <;> cases k2 <;> simp_all [parseEnv]

theorem c6_only_required_fields_validated_witness :
    parseEnv ⟨none, some "key1", some "http://twenty.example", some "key2",
        some "10", some "5"⟩ = none ∧
    parseEnv ⟨some "not a url", some "key1", some "http://twenty.example",
        some "key2", some "10", some "5"⟩ = none ∧
    parseEnv ⟨some "http://zoho.example", some "", some "http://twenty.example",
        some "key2", some "10", some "5"⟩ = none :=
  ⟨(c6_only_required_fields_validated
      ⟨none, some "key1", some "http://twenty.example", some "key2",
        some "10", some "5"⟩ none none).2.2.2.1 (Or.inl rfl),
   (c6_only_required_fields_validated
      ⟨some "not a url", some "key1", some "http://twenty.example",
        some "key2", some "10", some "5"⟩ none none).2.2.2.2.1
     "not a url" rfl (by decide),
   (c6_only_required_fields_validated
      ⟨some "http://zoho.example", some "", some "http://twenty.example",
        some "key2", some "10", some "5"⟩ none none).2.2.2.2.2.2.1
     "" rfl rfl⟩

/-- C7: `validateDate` re-emits a parseable date string as the normalized
ISO rendering of the parsed instant (and parsing the output recovers that
same instant), falls back to the current time for unparseable strings, and
in both cases the output is itself a parseable, valid timestamp. -/
theorem c7_validateDate_normalizes (s : String) (now : DateTime)
    (hnow : validDate now = true) :
    validateDate s now = (parseDate s).elim (toISOString now) toISOString ∧
    parseDate (validateDate s now) = (parseDate s).elim (some now) some ∧
    (parseDate (validateDate s now)).isSome = true := by
  cases hp : parseDate s with
  | none =>
    refine ⟨by simp [validateDate, hp], ?_, ?_⟩ <;>
      simp [validateDate, hp, parseDate_toISOString now hnow]
  | some t =>
    have ht := parseDate_toISOString t (parseDate_valid hp)
    refine ⟨by simp [validateDate, hp], ?_, ?_⟩ <;>
      simp [validateDate, hp, ht]

theorem c7_validateDate_witness :
    validDate ⟨2025, 6, 15, 10, 0, 0, 0⟩ = true ∧
    (validateDate "2024-02-29T08:30:00.250Z" ⟨2025, 6, 15, 10, 0, 0, 0⟩ =
        (parseDate "2024-02-29T08:30:00.250Z").elim
          (toISOString ⟨2025, 6, 15, 10, 0, 0, 0⟩) toISOString ∧
      parseDate (validateDate "2024-02-29T08:30:00.250Z"
          ⟨2025, 6, 15, 10, 0, 0, 0⟩) =
        (parseDate "2024-02-29T08:30:00.250Z").elim
          (some ⟨2025, 6, 15, 10, 0, 0, 0⟩) some ∧
      (parseDate (validateDate "2024-02-29T08:30:00.250Z"
          ⟨2025, 6, 15, 10, 0, 0, 0⟩)).isSome = true) :=
  ⟨by decide,
   c7_validateDate_normalizes "2024-02-29T08:30:00.250Z" _ (by decide)⟩

/-- C8 (counterexample): two failures with different status codes (404 and
503) but the same response message produce identical thrown errors, so the
error the run fails with cannot expose the status code — only the log
carries it. -/
theorem c8_counterexample_status_not_propagated :
    (handleApiError ⟨some ⟨404, some ⟨some "boom"⟩⟩, "outer"⟩).2 =
      (handleApiError ⟨some ⟨503, some ⟨some "boom"⟩⟩, "outer"⟩).2 ∧
    (404 : Nat) ≠ 503 := by
  exact ⟨rfl, by decide⟩

/-- C8 (amended): `handleApiError` logs both the status code and the
message, but the error it throws to the caller is a plain `Error` carrying
only `"API Error: " ++ message`; changing the response's status code never
changes the thrown error. -/
theorem c8_thrown_error_carries_message_only (e : ApiError) (s : Nat) :
    (handleApiError e).2 =
      (handleApiError
        { e with response := e.response.map (fun r => { r with status := s }) }).2 ∧
    (handleApiError e).2.message = "API Error: " ++ apiMessageOf e ∧
    (handleApiError e).1 = ⟨apiStatusOf e, apiMessageOf e⟩ := by
  obtain ⟨resp, msg⟩ := e
  cases resp <;> exact ⟨rfl, rfl, rfl⟩

/-- C9: the mapped contact's `phones.primaryPhoneCountryCode` is the source
record's `Mailing_Country` string, copied verbatim, for every contact and
every index. -/
theorem c9_country_code_copied_verbatim (c : ZohoContact) (index : Nat) :
    (mapToTwentyContact c index).phones.primaryPhoneCountryCode =
      some c.Mailing_Country := rfl

/-- C10 (counterexample): when the body's `data` field is a non-array
object, `fetchZohoTasks` returns it unchanged, but the run does NOT fail
with a generic error — `zohoTasks.length` is `undefined`, the loop guard is
false, and the run completes successfully with zero writes, contradicting
the claim that absence-or-non-array leads to a failure when taking the
length. -/
theorem c10_counterexample_object_data_succeeds :
    fetchZohoTasksDyn (.obj [("data", .obj [])]) = .ok (.obj []) ∧
    (JsValue.obj []).isArr = false ∧
    migrateTasksDyn (.obj [("data", .obj [])]) 50 = .ok 0 := by
  exact ⟨rfl, rfl, rfl⟩

/-- C10 (amended): `fetchZohoTasks` returns the body's top-level `data`
field unchecked; when the field is absent (`undefined`) the run fails with
a generic `TypeError` on reading `.length` — not an `HttpError` — while a
non-array object with no numeric `length` silently yields a run with zero
iterations. -/
theorem c10_fetch_returns_data_unchecked (fields : List (String × JsValue))
    (batchSize : Nat) :
    fetchZohoTasksDyn (.obj fields) = .ok (lookupField fields "data") ∧
    (lookupField fields "data" = .undefined →
      migrateTasksDyn (.obj fields) batchSize =
        .error "TypeError: Cannot read properties of undefined (reading length)") := by
  refine ⟨rfl, ?_⟩
  intro h
  simp only [migrateTasksDyn, getProp, h]
  rfl

theorem c10_fetch_unchecked_witness :
    fetchZohoTasksDyn (.obj ([] : List (String × JsValue))) =
      .ok (lookupField [] "data") ∧
    migrateTasksDyn (.obj ([] : List (String × JsValue))) 50 =
      .error "TypeError: Cannot read properties of undefined (reading length)" :=
  ⟨(c10_fetch_returns_data_unchecked [] 50).1,
   (c10_fetch_returns_data_unchecked [] 50).2 rfl⟩
